import Mathlib

/-!
# ndt7-js: supervisor, orchestrator, aggregator and upload pacing loop

A shallow embedding of `src/ndt7.js`, `src/ndt7-upload-worker.js` and
`src/ndt7-download-worker.js`.

Modelling conventions.

* JavaScript numbers carried by messages are exact rationals; rounding of
  IEEE doubles is not modelled.  A numeric result of type `Option ℚ` is `none`
  when JavaScript would produce a non-finite value (`NaN`, `Infinity`); every
  later operation the code applies to such a value has a finite non-zero
  constant as its other operand, so it stays non-finite.
* A variable or property that JavaScript leaves `undefined` is an `Option`
  with value `none`.  Reading a property of `undefined` throws a `TypeError`;
  a handler that throws stops where it is, keeping the effects it already had.
* Server measurements are records with the fields of the ndt7 data model
  (`TCPInfo`, `ConnectionInfo`); byte counts and message sizes are naturals.
* Callbacks supplied by the user (looked up by `cb`) are recorded as the list
  of their arguments and are taken to return; the supervisor calls the `error`
  callback only after `worker.resolve`, so what it does cannot change the
  promise.
* The object a promise is resolved with is taken as it is at that moment, which
  is how the awaiting caller sees it.
* The event loop is a list of events handled one after the other.
-/

namespace Ndt7

/-! ## Numbers -/

/-- Division of two finite JavaScript numbers; `none` is a non-finite result. -/
def jsDiv (a b : ℚ) : Option ℚ :=
  if b = 0 then none else some (a / b)

/-- The abstract operation `ToInt32` on an integer-valued number. -/
def toInt32 (x : Int) : Int :=
  let m := x % 4294967296
  if 2147483648 ≤ m then m - 4294967296 else m

/-- The operator `x << k` on integer-valued numbers. -/
def jsShl (x : Int) (k : Nat) : Int :=
  toInt32 (toInt32 x * 2 ^ (k % 32))

/-- The operator `x >> k` on integer-valued numbers. -/
def jsShr (x : Int) (k : Nat) : Int :=
  toInt32 x / 2 ^ (k % 32)

/-! ## Data model -/

/-- The `TCPInfo` object of a server measurement. -/
structure TCPInfo where
  RTT : ℚ
  BytesRetrans : ℚ
  BytesSent : ℚ
  BytesReceived : ℚ
  ElapsedTime : ℚ
deriving DecidableEq

/-- The `ConnectionInfo` object of a server measurement. -/
structure ConnectionInfo where
  Client : String
  Server : String
deriving DecidableEq

/-- A decoded server measurement; `AllRTTs` is the property added by
`worker.resolve`. -/
structure ServerData where
  TCPInfo : TCPInfo
  ConnectionInfo : ConnectionInfo
  AllRTTs : Option (List ℚ) := none
deriving DecidableEq

/-- The `ClientData` object posted by a subtest worker. -/
structure ClientData where
  ElapsedTime : ℚ
  NumBytes : ℚ
  MeanClientMbps : Option ℚ
deriving DecidableEq

/-- The `data` of a message event received from a worker: an object whose
properties may each be absent. -/
structure EvData where
  MsgType : Option String := none
  Source : Option String := none
  ServerData : Option ServerData := none
  ClientData : Option ClientData := none
  code : Option Int := none
  Error : Option String := none
  Test : Option String := none
deriving DecidableEq

/-- The object `{returnCode, client, server}` a worker promise resolves to. -/
structure Outcome where
  returnCode : Int
  client : Option ClientData
  server : Option ServerData
deriving DecidableEq

/-! ## `getAverage` and `calculateJitter` -/

/-- The function `getAverage`: the loop adds `numbers[i]` for `i` from `0` to
`numbers.length - 1`, then divides by `numbers.length`. -/
def getAverage (numbers : List ℚ) : Option ℚ :=
  let sum := (List.range numbers.length).foldl (fun sum i => sum + numbers.getD i 0) 0
  jsDiv sum numbers.length

/-- The function `calculateJitter`: the loop pushes `|rtts[i] - rtts[i-1]|` for
`i` from `1` to `rtts.length - 1`, then averages what it pushed. -/
def calculateJitter (rtts : List ℚ) : Option ℚ :=
  let variances := (List.range' 1 (rtts.length - 1)).foldl
    (fun variances i => variances ++ [|rtts.getD i 0 - rtts.getD (i - 1) 0|]) []
  getAverage variances

/-! ## The worker supervisor `runNDT7Worker` -/

/-- The variables captured by the closures of `runNDT7Worker`, with a record of
the effects they had. -/
structure Supervisor where
  lastClientMeasurement : Option ClientData := none
  lastServerMeasurement : Option ServerData := none
  rtts : List ℚ := []
  /-- Number of calls of `worker.terminate()`. -/
  terminateCalls : Nat := 0
  /-- Value `workerPromise` settled with; `none` while it is pending. -/
  promise : Option Outcome := none
  /-- Number of calls of the promise's `resolve`. -/
  resolveCalls : Nat := 0
  /-- Whether the watchdog `workerTimeout` is still armed. -/
  workerTimeout : Bool := true
  /-- Arguments of the calls of `callbacks.error`, in order. -/
  errorCalls : List (Option String) := []
  /-- Arguments `Data` of the calls of `callbacks.measurement`, in order. -/
  measurementCalls : List (Option ClientData) := []
  /-- Number of `TypeError`s thrown out of a handler. -/
  uncaught : Nat := 0
deriving DecidableEq

/-- The function `worker.resolve`.  `Except.error` is the state at the point a
`TypeError` is thrown: `lastServerMeasurement.AllRTTs = rtts` with
`lastServerMeasurement` undefined. -/
def Supervisor.resolve (w : Supervisor) (returnCode : Int) : Except Supervisor Supervisor :=
  let w := { w with terminateCalls := w.terminateCalls + 1 }
  let assigned : Except Supervisor Supervisor :=
    if returnCode = 0 then
      match w.lastServerMeasurement with
      | none => Except.error w
      | some s => Except.ok { w with lastServerMeasurement := some { s with AllRTTs := some w.rtts } }
    else Except.ok w
  match assigned with
  | Except.error w => Except.error w
  | Except.ok w =>
    let value : Outcome :=
      { returnCode := returnCode, client := w.lastClientMeasurement, server := w.lastServerMeasurement }
    Except.ok { w with
      resolveCalls := w.resolveCalls + 1
      promise := match w.promise with
        | none => some value
        | some v => some v }

/-- Leaving a handler: a thrown `TypeError` is uncaught and ends the handler. -/
def Supervisor.leave : Except Supervisor Supervisor → Supervisor
  | Except.ok w => w
  | Except.error w => { w with uncaught := w.uncaught + 1 }

/-- The call `callbacks.error(message)`. -/
def Supervisor.error (w : Supervisor) (message : Option String) : Supervisor :=
  { w with errorCalls := w.errorCalls ++ [message] }

/-- The call `clearTimeout(workerTimeout)`. -/
def Supervisor.clearTimeout (w : Supervisor) : Supervisor :=
  { w with workerTimeout := false }

/-- A value of `MsgType` that `!ev.data.MsgType` takes for false. -/
def falsy : Option String → Bool
  | none => true
  | some s => s == ""

/-- The message shown for close code 1006. -/
def abnormalClosure : String :=
  "The connection was closed abnormally, or could not be opened properly"

/-- The handler `worker.onmessage`, applied to `ev.data` (`none` when it is
falsy). -/
def Supervisor.onmessage (testType : String) (w : Supervisor) (data : Option EvData) : Supervisor :=
  match data with
  | none =>
    Supervisor.leave do
      let w ← (w.clearTimeout).resolve 1
      pure (w.error (some (testType ++ " error")))
  | some d =>
    if falsy d.MsgType || d.MsgType == some "error" then
      Supervisor.leave do
        let w ← (w.clearTimeout).resolve 1
        pure (w.error d.Error)
    else if d.MsgType == some "measurement" then
      if d.Source == some "server" then
        let w := { w with lastServerMeasurement := d.ServerData }
        match d.ServerData with
        | none => Supervisor.leave (Except.error w)
        | some s => { w with rtts := w.rtts ++ [s.TCPInfo.RTT] }
      else
        { w with
          lastClientMeasurement := d.ClientData
          measurementCalls := w.measurementCalls ++ [d.ClientData] }
    else if d.MsgType == some "closed" then
      let w := w.clearTimeout
      if d.code == some 1006 then
        Supervisor.leave do
          let w ← w.resolve 1
          pure (w.error (some abnormalClosure))
      else
        Supervisor.leave (w.resolve 0)
    else w

/-- The watchdog callback `() => worker.resolve(0)`; a cleared timer does not
fire. -/
def Supervisor.ontimeout (w : Supervisor) : Supervisor :=
  if w.workerTimeout then
    Supervisor.leave ({ w with workerTimeout := false }.resolve 0)
  else w

/-- What the event loop delivers to the supervisor. -/
inductive Event where
  /-- A message event from the worker, with its `ev.data`. -/
  | message (data : Option EvData)
  /-- The 10000 ms of the watchdog have elapsed. -/
  | timeout
deriving DecidableEq

/-- One turn of the event loop. -/
def Supervisor.step (testType : String) (w : Supervisor) : Event → Supervisor
  | Event.message data => w.onmessage testType data
  | Event.timeout => w.ontimeout

/-- The function `runNDT7Worker` on the events the loop delivers; the promise
it returns is the field `promise` of the result. -/
def runNDT7Worker (testType : String) (events : List Event) : Supervisor :=
  events.foldl (Supervisor.step testType) {}

/-- An event that is a message with `MsgType` equal to `'measurement'`. -/
def Event.isMeasurement : Event → Bool
  | Event.message (some d) => d.MsgType == some "measurement"
  | _ => false

/-- The supervisor has not yet seen a terminal message nor the watchdog. -/
def Supervisor.Untouched (w : Supervisor) : Prop :=
  w.promise = none ∧ w.resolveCalls = 0 ∧ w.terminateCalls = 0 ∧ w.errorCalls = [] ∧
    w.workerTimeout = true

/-! ## The orchestrator `test` and its aggregation -/

/-- The object returned by `getServerURLs`. -/
structure ServerURLs where
  download : String
  upload : String
deriving DecidableEq

/-- The function `getServerURLs`. -/
def getServerURLs (state : String) : ServerURLs :=
  let protocol := "wss://"
  let domain := ".medidor.rnp.br"
  let port := ":4443"
  let pathBase := "/ndt/v7/"
  { download := protocol ++ state.toLower ++ domain ++ port ++ pathBase ++ "download"
    upload := protocol ++ state.toLower ++ domain ++ port ++ pathBase ++ "upload" }

/-- The argument `config` of `test`; `none` is a property that is not in it. -/
structure Config where
  state : Option String := none
  libraryPath : Option String := none
deriving DecidableEq

/-- The object `results` of `test`; a property is `none` until it is assigned,
and a numeric property holds `none` for a non-finite number. -/
structure Results where
  horario : Option String := none
  banda_download : Option (Option ℚ) := none
  retransmissao : Option (Option ℚ) := none
  ip_cliente : Option String := none
  ip_servidor : Option String := none
  banda_upload : Option (Option ℚ) := none
  rtt : Option (Option ℚ) := none
  jitter : Option (Option ℚ) := none
deriving DecidableEq

/-- How a call of `test` ends. -/
inductive Completion where
  /-- The promise of `test` is fulfilled with this status. -/
  | returned (status : Int)
  /-- A `TypeError` is thrown: a property of `undefined` is read. -/
  | threw
  /-- An awaited subtest promise never settles. -/
  | pending
deriving DecidableEq

/-- What a call of `test` does. -/
structure TestRun where
  completion : Completion
  /-- The object `results` as it is when `test` ends. -/
  results : Results
  /-- Whether `uploadTest` has been called. -/
  uploadStarted : Bool
  /-- Arguments `results` of the calls of the `finalMeasurements` callback. -/
  finalCalls : List Results
deriving DecidableEq

/-- The expression `x.split(sep)[0]`. -/
def splitHead (x sep : String) : String :=
  (x.splitOn sep).headD ""

/-- The function `test`.  `startTime` is the string the clock gives at the
start; `downloadResults` and `uploadResults` are what awaiting `downloadTest`
and `uploadTest` yields (`none`: the promise never settles), the second being
consulted only when `uploadTest` is called. -/
def test (startTime : String) (config : Option Config)
    (downloadResults uploadResults : Option Outcome) : TestRun :=
  let urls := getServerURLs (match config with
    | some c => (match c.state with
      | some st => st
      | none => "rj")
    | none => "rj")
  match downloadResults with
  | none => { completion := Completion.pending, results := {}, uploadStarted := false, finalCalls := [] }
  | some downloadResults =>
    let results : Results := { horario := some startTime }
    if downloadResults.returnCode ≠ 0 then
      { completion := Completion.returned downloadResults.returnCode, results := results,
        uploadStarted := false, finalCalls := [] }
    else
      match downloadResults.client with
      | none => { completion := Completion.threw, results := results, uploadStarted := false, finalCalls := [] }
      | some client =>
        let results := { results with
          banda_download := some ((jsDiv (client.NumBytes * 8) client.ElapsedTime).map (· / 1000000)) }
        match downloadResults.server with
        | none => { completion := Completion.threw, results := results, uploadStarted := false, finalCalls := [] }
        | some server =>
          let results := { results with
            retransmissao := some ((jsDiv server.TCPInfo.BytesRetrans server.TCPInfo.BytesSent).map (· * 100))
            ip_cliente := some (splitHead server.ConnectionInfo.Client ":")
            ip_servidor := some (splitHead server.ConnectionInfo.Server ":" ++ " (" ++
              splitHead ((urls.download.splitOn "/").getD 2 "") ":" ++ ")") }
          match uploadResults with
          | none => { completion := Completion.pending, results := results, uploadStarted := true, finalCalls := [] }
          | some uploadResults =>
            if uploadResults.returnCode ≠ 0 then
              { completion := Completion.returned (downloadResults.returnCode + jsShl uploadResults.returnCode 4),
                results := results, uploadStarted := true, finalCalls := [] }
            else
              match uploadResults.server with
              | none => { completion := Completion.threw, results := results, uploadStarted := true, finalCalls := [] }
              | some uploadServer =>
                let results := { results with
                  banda_upload := some (jsDiv (uploadServer.TCPInfo.BytesReceived * 8) uploadServer.TCPInfo.ElapsedTime) }
                match server.AllRTTs with
                | none => { completion := Completion.threw, results := results, uploadStarted := true, finalCalls := [] }
                | some downloadRTTs =>
                  let results :=
                    match uploadServer.AllRTTs with
                    | some uploadRTTs =>
                      let allRTTs := downloadRTTs ++ uploadRTTs
                      { results with
                        rtt := some ((getAverage allRTTs).map (· / 1000))
                        jitter := some ((calculateJitter allRTTs).map (· / 1000)) }
                    | none =>
                      -- `concat(undefined)` appends `undefined`: both averages are `NaN`
                      { results with rtt := some none, jitter := some none }
                  { completion := Completion.returned (downloadResults.returnCode + jsShl uploadResults.returnCode 4),
                    results := results, uploadStarted := true, finalCalls := [results] }

/-- The promise of `downloadTest` on the events its supervisor is delivered. -/
def downloadTest (events : List Event) : Option Outcome :=
  (runNDT7Worker "download" events).promise

/-- The promise of `uploadTest` on the events its supervisor is delivered. -/
def uploadTest (events : List Event) : Option Outcome :=
  (runNDT7Worker "upload" events).promise

/-! ## The download worker -/

/-- The variables `start`, `previous` and `total` of the worker's `downloadTest`. -/
structure DownloadState where
  start : ℚ
  previous : ℚ
  total : Nat
deriving DecidableEq

/-- An inbound frame: its `size` (or `length`), and for a text frame the value
`JSON.parse` gives. -/
structure Frame where
  size : Nat
  text : Option ServerData := none
deriving DecidableEq

/-- The handler `sock.onopen` of the download worker. -/
def DownloadState.onopen (now : ℚ) : DownloadState :=
  { start := now, previous := now, total := 0 }

/-- The handler `sock.onmessage` of the download worker: the new state and the
messages posted, in order. -/
def DownloadState.onmessage (s : DownloadState) (currentTime : ℚ) (f : Frame) :
    DownloadState × List EvData :=
  let total := s.total + f.size
  let every : ℚ := 250
  let sample := decide (currentTime - s.previous > every)
  let clientMessage : EvData :=
    { MsgType := some "measurement"
      ClientData := some
        { ElapsedTime := (currentTime - s.start) / 1000
          NumBytes := total
          MeanClientMbps := (jsDiv total (currentTime - s.start)).map (· * (8 / 1000)) }
      Source := some "client"
      Test := some "download" }
  let serverMessage : List EvData :=
    match f.text with
    | some parsed =>
      [{ MsgType := some "measurement", ServerData := some parsed, Source := some "server" }]
    | none => []
  ({ s with total := total, previous := if sample then currentTime else s.previous },
    (if sample then [clientMessage] else []) ++ serverMessage)

/-- The handler `sock.onclose` of the download worker. -/
def downloadOnclose (code : Int) : EvData :=
  { MsgType := some "closed", code := some code }

/-! ## The upload worker and its pacing loop `uploader` -/

/-- The arguments `data` (its length), `start`, `end`, `previous`, `total` of
one call of `uploader`. -/
structure PacingState where
  data : Nat
  start : ℚ
  endTime : ℚ
  previous : ℚ
  total : Nat
deriving DecidableEq

/-- What one call of `uploader` reads from its environment: the flag `closed`,
the clock, and `sock.bufferedAmount` at each of the three places it is read
(the growth rule, the flow control, the client sample). -/
structure Tick where
  closed : Bool
  currentTime : ℚ
  bufferedAtGrowth : Nat
  bufferedAtSend : Nat
  bufferedAtSample : Nat
deriving DecidableEq

/-- What one call of `uploader` does. -/
structure TickEffect where
  /-- Whether `sock.close()` is called. -/
  closeCalled : Bool := false
  /-- Length of the array given to `sock.send`, when it is called. -/
  sent : Option Nat := none
  /-- The message posted, if any. -/
  posted : Option EvData := none
  /-- Arguments of the call scheduled with `setTimeout`; `none` when the loop
  stops. -/
  next : Option PacingState := none
deriving DecidableEq

/-- The constant `maxMessageSize`. -/
def maxMessageSize : Nat := 8388608

/-- The constant `initialMessageSize`. -/
def initialMessageSize : Nat := 8192

/-- The function `uploader`. -/
def uploader (s : PacingState) (t : Tick) : TickEffect :=
  if t.closed then {}
  else if t.currentTime ≥ s.endTime then { closeCalled := true }
  else
    let clientMeasurementInterval : ℚ := 250
    -- `none` is `Infinity`, which no number reaches
    let nextSizeIncrement : Option Nat :=
      if s.data ≥ maxMessageSize then none else some (16 * s.data)
    let data : Nat :=
      match nextSizeIncrement with
      | some increment =>
        if ((s.total : Int) - (t.bufferedAtGrowth : Int)) ≥ (increment : Int) then s.data * 2 else s.data
      | none => s.data
    let desiredBuffer := 7 * data
    let send := decide (t.bufferedAtSend < desiredBuffer)
    let total := if send then s.total + data else s.total
    let sample := decide (t.currentTime ≥ s.previous + clientMeasurementInterval)
    let numBytes : Int := (total : Int) - (t.bufferedAtSample : Int)
    let elapsedTime : ℚ := (t.currentTime - s.start) / 1000
    let meanMbps : Option ℚ := jsDiv ((numBytes : ℚ) * 8 / 1000000) elapsedTime
    { closeCalled := false
      sent := if send then some data else none
      posted := if sample then some
          { MsgType := some "measurement"
            ClientData := some
              { ElapsedTime := elapsedTime, NumBytes := numBytes, MeanClientMbps := meanMbps }
            Source := some "client"
            Test := some "upload" }
        else none
      next := some
        { data := data, start := s.start, endTime := s.endTime
          previous := if sample then t.currentTime else s.previous
          total := total } }

/-- The handler `sock.onopen` of the upload worker: the arguments of the first
call of `uploader`. -/
def PacingState.onopen (now : ℚ) : PacingState :=
  let start := now
  let duration : ℚ := 10000
  { data := initialMessageSize, start := start, endTime := start + duration, previous := start, total := 0 }

/-- The calls of `uploader` after the first: the arguments of each rescheduled
call, for the readings of the successive ticks, until the loop stops. -/
def uploadLoop (s : PacingState) : List Tick → List PacingState
  | [] => []
  | t :: ts =>
    match (uploader s t).next with
    | none => []
    | some s' => s' :: uploadLoop s' ts

/-- The arguments of every call of `uploader` in a session opened at `now`. -/
def uploadCalls (now : ℚ) (ticks : List Tick) : List PacingState :=
  PacingState.onopen now :: uploadLoop (PacingState.onopen now) ticks

/-- What the supervisor guarantees of the object it resolves a promise with:
the code is 0 or 1, and with code 0 the server measurement is there and carries
`AllRTTs`. -/
def Outcome.Resolved (o : Outcome) : Prop :=
  (o.returnCode = 0 ∨ o.returnCode = 1) ∧
    (o.returnCode = 0 → ∃ s l, o.server = some s ∧ s.AllRTTs = some l)

/-- Every settled value of the promise is as `Outcome.Resolved` says. -/
def Supervisor.Settled (w : Supervisor) : Prop :=
  ∀ o, w.promise = some o → o.Resolved

/-- The jitter as the specification words it: the arithmetic mean of the
absolute differences `|r[i] - r[i-1]|` of consecutive samples, `i = 1..n-1`. -/
def specJitter (r : List ℚ) : ℚ :=
  (∑ i in Finset.Icc 1 (r.length - 1), |r.getD i 0 - r.getD (i - 1) 0|) / ((r.length - 1 : ℕ) : ℚ)

/-! ## The pacing loop: notions used to state its properties -/

/-- The message size is `8192 * 2^k` for some `k ≤ 10`. -/
def PacingState.PowerSize (s : PacingState) : Prop :=
  ∃ k : ℕ, k ≤ 10 ∧ s.data = initialMessageSize * 2 ^ k

/-- The call of `uploader` gets as far as the growth rule: the socket is not
closed and the deadline has not come. -/
def reachesGrowthRule (s : PacingState) (t : Tick) : Bool :=
  !t.closed && decide (t.currentTime < s.endTime)

/-- The quantity `total - sock.bufferedAmount` the growth rule compares. -/
def sentAtGrowth (s : PacingState) (t : Tick) : Int :=
  (s.total : Int) - (t.bufferedAtGrowth : Int)

/-- The call of `uploader` doubles the message size: the next call gets an array
twice as long. -/
def doubles (s : PacingState) (t : Tick) : Bool :=
  match (uploader s t).next with
  | some s' => decide (s'.data = 2 * s.data)
  | none => false

/-- The pacing state after the given ticks, with the value `sent` had at the
latest tick that doubled the size (`g` if none did): the previous growth point
of the specification. -/
def growthPoint (s : PacingState) (g : Int) : List Tick → PacingState × Int
  | [] => (s, g)
  | t :: ts =>
    match (uploader s t).next with
    | none => (s, g)
    | some s' => growthPoint s' (if doubles s t then sentAtGrowth s t else g) ts

/-- The growth condition as the specification words it: `sent` has advanced by
at least 16 times the current message size since the previous growth point. -/
def specGrowthCondition (g : Int) (s : PacingState) (t : Tick) : Prop :=
  sentAtGrowth s t - g ≥ 16 * (s.data : Int)

/-- A tick at time 1 ms that finds the socket open and its buffer flushed, and
after whose send the buffer holds the `queued` bytes just sent. -/
def flushedTick (queued : Nat) : Tick :=
  { closed := false, currentTime := 1, bufferedAtGrowth := 0, bufferedAtSend := 0,
    bufferedAtSample := queued }

/-- Twenty-four ticks of a session opened at time 0 on a link that flushes each
message before the next tick: 16 sends of 8192 bytes, then (the size having
doubled on the 17th tick) 8 sends of 16384 bytes. -/
def flushedTicks : List Tick :=
  List.replicate 16 (flushedTick 8192) ++ List.replicate 8 (flushedTick 16384)

/-! ## Sample values -/

/-- A server measurement, as the download worker forwards it. -/
def sampleServer : ServerData :=
  { TCPInfo := { RTT := 20000, BytesRetrans := 0, BytesSent := 12500000, BytesReceived := 0,
                 ElapsedTime := 10000000 }
    ConnectionInfo := { Client := "10.0.0.2:50000", Server := "10.0.0.1:4443" } }

/-- A client sample of 12,500,000 bytes in 10 seconds. -/
def sampleClient : ClientData :=
  { ElapsedTime := 10, NumBytes := 12500000, MeanClientMbps := some 10 }

/-- A download that delivers one client sample and one server measurement and
closes with code 1000. -/
def sampleDownloadEvents : List Event :=
  [ Event.message (some { MsgType := some "measurement", Source := some "client",
                          ClientData := some sampleClient }),
    Event.message (some { MsgType := some "measurement", Source := some "server",
                          ServerData := some sampleServer }),
    Event.message (some { MsgType := some "closed", code := some 1000 }) ]

/-- What the supervisor resolves with on `sampleDownloadEvents`. -/
def sampleDownloadOutcome : Outcome :=
  { returnCode := 0, client := some sampleClient
    server := some { sampleServer with AllRTTs := some [20000] } }

/-- An upload whose connection is closed abnormally at once. -/
def sampleUploadEvents : List Event :=
  [ Event.message (some { MsgType := some "closed", code := some 1006 }) ]

/-- What the supervisor resolves with on `sampleUploadEvents`. -/
def sampleUploadOutcome : Outcome :=
  { returnCode := 1, client := none, server := none }

/-! ## The RTT samples of a subtest -/

/-- The `TCPInfo.RTT` value a delivered event carries as a server measurement
message `{MsgType:'measurement', Source:'server', ServerData}`, if it is one. -/
def Event.serverRTT : Event → List ℚ
  | Event.message (some d) =>
    if d.MsgType = some "measurement" ∧ d.Source = some "server" then
      match d.ServerData with
      | some s => [s.TCPInfo.RTT]
      | none => []
    else []
  | _ => []

/-- The `TCPInfo.RTT` values of the server measurement messages among the
events delivered, in the order of receipt. -/
def serverRTTs : List Event → List ℚ
  | [] => []
  | e :: es => e.serverRTT ++ serverRTTs es

/-- A second server measurement, as the upload worker forwards it. -/
def sampleUploadServer : ServerData :=
  { TCPInfo := { RTT := 30000, BytesRetrans := 0, BytesSent := 0, BytesReceived := 12500000,
                 ElapsedTime := 10000000 }
    ConnectionInfo := { Client := "10.0.0.2:50001", Server := "10.0.0.1:4443" } }

/-- The events of `sampleDownloadEvents` before the closing one. -/
def sampleDownloadMeasurements : List Event :=
  [ Event.message (some { MsgType := some "measurement", Source := some "client",
                          ClientData := some sampleClient }),
    Event.message (some { MsgType := some "measurement", Source := some "server",
                          ServerData := some sampleServer }) ]

/-- An upload that delivers two server measurements, with RTT 30000 then
20000, before it closes with code 1000. -/
def sampleUploadMeasurements : List Event :=
  [ Event.message (some { MsgType := some "measurement", Source := some "server",
                          ServerData := some sampleUploadServer }),
    Event.message (some { MsgType := some "measurement", Source := some "server",
                          ServerData := some sampleServer }) ]

/-- What the supervisor resolves with on `sampleUploadMeasurements` followed by
a close with code 1000. -/
def sampleUploadSuccess : Outcome :=
  { returnCode := 0, client := none
    server := some { sampleServer with AllRTTs := some [30000, 20000] } }

/-! # Results -/

/-! ## Supervisor: facts used by several results -/

theorem Supervisor.untouched_init : Supervisor.Untouched {} := by
  simp [Supervisor.Untouched]

theorem Supervisor.untouched_step (testType : String) (w : Supervisor) (e : Event)
    (hw : w.Untouched) (he : e.isMeasurement = true) : (w.step testType e).Untouched := by
  obtain ⟨h1, h2, h3, h4, h5⟩ := hw
  cases e with
  | timeout => simp [Event.isMeasurement] at he
  | message data =>
    cases data with
    | none => simp [Event.isMeasurement] at he
    | some d =>
      have hm : d.MsgType = some "measurement" := by simpa [Event.isMeasurement] using he
      cases hs : d.ServerData <;>
        by_cases hsrc : d.Source = some "server" <;>
        simp [Supervisor.step, Supervisor.onmessage, hm, falsy, Supervisor.Untouched,
          Supervisor.leave, hs, hsrc, h1, h2, h3, h4, h5]

theorem Supervisor.untouched_foldl (testType : String) (msgs : List Event)
    (h : ∀ e ∈ msgs, e.isMeasurement = true) (w : Supervisor) (hw : w.Untouched) :
    (msgs.foldl (Supervisor.step testType) w).Untouched := by
  induction msgs generalizing w with
  | nil => simpa using hw
  | cons e es ih =>
    simp only [List.foldl_cons]
    exact ih (fun x hx => h x (List.mem_cons_of_mem _ hx)) _
      (Supervisor.untouched_step testType w e hw (h e (List.mem_cons_self _ _)))

theorem runNDT7Worker_untouched (testType : String) (msgs : List Event)
    (h : ∀ e ∈ msgs, e.isMeasurement = true) : (runNDT7Worker testType msgs).Untouched :=
  Supervisor.untouched_foldl testType msgs h {} Supervisor.untouched_init

theorem runNDT7Worker_append (testType : String) (msgs : List Event) (e : Event) :
    runNDT7Worker testType (msgs ++ [e]) = (runNDT7Worker testType msgs).step testType e := by
  simp [runNDT7Worker, List.foldl_append]

theorem Supervisor.settled_resolve (w : Supervisor) (returnCode : Int)
    (hrc : returnCode = 0 ∨ returnCode = 1) (hw : w.Settled) :
    match w.resolve returnCode with
    | Except.ok w' => w'.Settled
    | Except.error w' => w'.Settled := by
  unfold Supervisor.Settled at hw
  rcases hrc with rfl | rfl
  · cases hs : w.lastServerMeasurement with
    | none => simpa [Supervisor.resolve, hs, Supervisor.Settled] using hw
    | some s =>
      cases hp : w.promise with
      | none =>
        simp [Supervisor.resolve, hs, hp, Supervisor.Settled, Outcome.Resolved]
      | some v =>
        have := hw v hp
        simpa [Supervisor.resolve, hs, hp, Supervisor.Settled] using this
  · cases hp : w.promise with
    | none => simp [Supervisor.resolve, hp, Supervisor.Settled, Outcome.Resolved]
    | some v =>
      have := hw v hp
      simpa [Supervisor.resolve, hp, Supervisor.Settled] using this

theorem Supervisor.settled_leave_resolve (w : Supervisor) (returnCode : Int)
    (hrc : returnCode = 0 ∨ returnCode = 1) (hw : w.Settled) :
    (Supervisor.leave (w.resolve returnCode)).Settled := by
  have h := Supervisor.settled_resolve w returnCode hrc hw
  cases hr : w.resolve returnCode with
  | ok w' => rw [hr] at h; simpa [Supervisor.leave] using h
  | error w' => rw [hr] at h; simpa [Supervisor.leave, Supervisor.Settled] using h

theorem Supervisor.settled_leave_resolve_error (w : Supervisor) (returnCode : Int)
    (message : Option String) (hrc : returnCode = 0 ∨ returnCode = 1) (hw : w.Settled) :
    (Supervisor.leave (do
      let w ← w.resolve returnCode
      pure (w.error message))).Settled := by
  have h := Supervisor.settled_resolve w returnCode hrc hw
  cases hr : w.resolve returnCode with
  | ok w' =>
    rw [hr] at h
    simpa [Supervisor.leave, Supervisor.error, Supervisor.Settled, bind, Except.bind, pure,
      Except.pure] using h
  | error w' =>
    rw [hr] at h
    simpa [Supervisor.leave, Supervisor.Settled, bind, Except.bind] using h

theorem Supervisor.settled_step (testType : String) (w : Supervisor) (e : Event)
    (hw : w.Settled) : (w.step testType e).Settled := by
  have hclear : w.clearTimeout.Settled := by simpa [Supervisor.clearTimeout, Supervisor.Settled] using hw
  cases e with
  | timeout =>
    simp only [Supervisor.step, Supervisor.ontimeout]
    split
    · exact Supervisor.settled_leave_resolve _ 0 (Or.inl rfl) hclear
    · exact hw
  | message data =>
    cases data with
    | none =>
      exact Supervisor.settled_leave_resolve_error _ 1 _ (Or.inr rfl) hclear
    | some d =>
      simp only [Supervisor.step, Supervisor.onmessage]
      split
      · exact Supervisor.settled_leave_resolve_error _ 1 _ (Or.inr rfl) hclear
      · split
        · split
          · cases hs : d.ServerData <;>
              simpa [Supervisor.leave, Supervisor.Settled] using hw
          · simpa [Supervisor.Settled] using hw
        · split
          · split
            · exact Supervisor.settled_leave_resolve_error _ 1 _ (Or.inr rfl) hclear
            · exact Supervisor.settled_leave_resolve _ 0 (Or.inl rfl) hclear
          · exact hw

theorem runNDT7Worker_settled (testType : String) (events : List Event) :
    (runNDT7Worker testType events).Settled := by
  have key : ∀ (l : List Event) (w : Supervisor), w.Settled →
      (l.foldl (Supervisor.step testType) w).Settled := by
    intro l
    induction l with
    | nil => intro w hw; simpa using hw
    | cons e es ih => intro w hw; exact ih _ (Supervisor.settled_step testType w e hw)
  exact key events {} (by simp [Supervisor.Settled])

/-! ## C1: the watchdog and a silent worker -/

/-- C1 (defect in the code): for a worker that posts no message, the watchdog
callback `worker.resolve(0)` calls `worker.terminate()` once and then throws a
`TypeError` at `lastServerMeasurement.AllRTTs = rtts`, so the promise's
`resolve` is never called and the promise stays pending, where the claim has it
resolved once with `returnCode` 0. -/
theorem watchdog_silent_worker_stays_pending (testType : String) :
    (runNDT7Worker testType [Event.timeout]).terminateCalls = 1 ∧
    (runNDT7Worker testType [Event.timeout]).uncaught = 1 ∧
    (runNDT7Worker testType [Event.timeout]).resolveCalls = 0 ∧
    (runNDT7Worker testType [Event.timeout]).promise = none ∧
    (runNDT7Worker testType [Event.timeout]).workerTimeout = false := by
  refine ⟨rfl, rfl, rfl, rfl, rfl⟩

/-- With a server measurement in hand, the watchdog does resolve the promise,
once and with `returnCode` 0. -/
theorem watchdog_resolves_with_server (testType : String) (msgs : List Event)
    (hmsgs : ∀ e ∈ msgs, e.isMeasurement = true) (s : ServerData)
    (hs : (runNDT7Worker testType msgs).lastServerMeasurement = some s) :
    (runNDT7Worker testType (msgs ++ [Event.timeout])).promise =
      some { returnCode := 0
             client := (runNDT7Worker testType msgs).lastClientMeasurement
             server := some { s with AllRTTs := some (runNDT7Worker testType msgs).rtts } } ∧
    (runNDT7Worker testType (msgs ++ [Event.timeout])).resolveCalls = 1 ∧
    (runNDT7Worker testType (msgs ++ [Event.timeout])).terminateCalls = 1 := by
  obtain ⟨h1, h2, h3, -, h5⟩ := runNDT7Worker_untouched testType msgs hmsgs
  rw [runNDT7Worker_append]
  simp [Supervisor.step, Supervisor.ontimeout, Supervisor.resolve, Supervisor.leave,
    h1, h2, h3, h5, hs]

/-! ## C2: close code 1006 -/

/-- C2: after any sequence of measurement messages (the empty one included),
the message `{MsgType:'closed', code:1006}` finds the promise pending, resolves
it with `returnCode` 1 (and the last client and server measurements), by the
one call of `resolve` and after the one call of `terminate`, and the error
callback is called once, with the fixed message of an abnormal closure. -/
theorem closed_1006_resolves_with_1 (testType : String) (msgs : List Event)
    (hmsgs : ∀ e ∈ msgs, e.isMeasurement = true) (d : EvData)
    (hd : d.MsgType = some "closed") (hc : d.code = some 1006) :
    (runNDT7Worker testType msgs).promise = none ∧
    (runNDT7Worker testType (msgs ++ [Event.message (some d)])).promise =
      some { returnCode := 1
             client := (runNDT7Worker testType msgs).lastClientMeasurement
             server := (runNDT7Worker testType msgs).lastServerMeasurement } ∧
    (runNDT7Worker testType (msgs ++ [Event.message (some d)])).resolveCalls = 1 ∧
    (runNDT7Worker testType (msgs ++ [Event.message (some d)])).terminateCalls = 1 ∧
    (runNDT7Worker testType (msgs ++ [Event.message (some d)])).errorCalls =
      [some "The connection was closed abnormally, or could not be opened properly"] := by
  obtain ⟨h1, h2, h3, h4, -⟩ := runNDT7Worker_untouched testType msgs hmsgs
  refine ⟨h1, ?_⟩
  rw [runNDT7Worker_append]
  simp [Supervisor.step, Supervisor.onmessage, Supervisor.resolve, Supervisor.leave,
    Supervisor.clearTimeout, Supervisor.error, abnormalClosure, falsy, hd, hc, h1, h2, h3, h4,
    bind, Except.bind, pure, Except.pure]

/-- C2 at a concrete input: one client measurement, then the close message. -/
theorem closed_1006_resolves_with_1_witness :
    (runNDT7Worker "download"
      ([Event.message (some { MsgType := some "measurement", Source := some "client" })] ++
        [Event.message (some { MsgType := some "closed", code := some 1006 })])).promise =
      some { returnCode := 1, client := none, server := none } ∧
    (runNDT7Worker "download"
      ([Event.message (some { MsgType := some "measurement", Source := some "client" })] ++
        [Event.message (some { MsgType := some "closed", code := some 1006 })])).errorCalls =
      [some "The connection was closed abnormally, or could not be opened properly"] :=
  have h := closed_1006_resolves_with_1 "download"
    [Event.message (some { MsgType := some "measurement", Source := some "client" })]
    (by decide) { MsgType := some "closed", code := some 1006 } rfl rfl
  ⟨h.2.1, h.2.2.2.2⟩

/-! ## C3: a close code other than 1006 -/

/-- C3 (defect in the code): when `{MsgType:'closed', code:1000}` arrives before
any server measurement, `worker.resolve(0)` calls `worker.terminate()` and then
throws a `TypeError` at `lastServerMeasurement.AllRTTs = rtts`: the promise is
not resolved, and as the watchdog has been cleared it never will be.  The error
callback is not called.  The claim has the promise resolved with `returnCode`
0 here. -/
theorem closed_normal_without_server_stays_pending (testType : String) :
    (runNDT7Worker testType
      [Event.message (some { MsgType := some "closed", code := some 1000 })]).promise = none ∧
    (runNDT7Worker testType
      [Event.message (some { MsgType := some "closed", code := some 1000 })]).resolveCalls = 0 ∧
    (runNDT7Worker testType
      [Event.message (some { MsgType := some "closed", code := some 1000 })]).uncaught = 1 ∧
    (runNDT7Worker testType
      [Event.message (some { MsgType := some "closed", code := some 1000 })]).errorCalls = [] ∧
    (runNDT7Worker testType
      [Event.message (some { MsgType := some "closed", code := some 1000 }), Event.timeout]).promise
        = none := by
  refine ⟨rfl, rfl, rfl, rfl, rfl⟩

/-- The same holds after any measurement messages that leave
`lastServerMeasurement` undefined, for every close code other than 1006. -/
theorem closed_normal_pending_of_no_server (testType : String) (msgs : List Event)
    (hmsgs : ∀ e ∈ msgs, e.isMeasurement = true)
    (hs : (runNDT7Worker testType msgs).lastServerMeasurement = none) (d : EvData)
    (hd : d.MsgType = some "closed") (hc : d.code ≠ some 1006) :
    (runNDT7Worker testType (msgs ++ [Event.message (some d)])).promise = none ∧
    (runNDT7Worker testType (msgs ++ [Event.message (some d)])).errorCalls = [] := by
  obtain ⟨h1, h2, h3, h4, -⟩ := runNDT7Worker_untouched testType msgs hmsgs
  rw [runNDT7Worker_append]
  simp [Supervisor.step, Supervisor.onmessage, Supervisor.resolve, Supervisor.leave,
    Supervisor.clearTimeout, falsy, hd, hc, h1, h2, h3, h4, hs]

/-- With a server measurement in hand, a close code other than 1006 resolves
the promise with `returnCode` 0 and the error callback is not called. -/
theorem closed_normal_resolves_with_server (testType : String) (msgs : List Event)
    (hmsgs : ∀ e ∈ msgs, e.isMeasurement = true) (s : ServerData)
    (hs : (runNDT7Worker testType msgs).lastServerMeasurement = some s) (d : EvData)
    (hd : d.MsgType = some "closed") (hc : d.code ≠ some 1006) :
    (runNDT7Worker testType (msgs ++ [Event.message (some d)])).promise =
      some { returnCode := 0
             client := (runNDT7Worker testType msgs).lastClientMeasurement
             server := some { s with AllRTTs := some (runNDT7Worker testType msgs).rtts } } ∧
    (runNDT7Worker testType (msgs ++ [Event.message (some d)])).errorCalls = [] := by
  obtain ⟨h1, h2, h3, h4, -⟩ := runNDT7Worker_untouched testType msgs hmsgs
  rw [runNDT7Worker_append]
  simp [Supervisor.step, Supervisor.onmessage, Supervisor.resolve, Supervisor.leave,
    Supervisor.clearTimeout, falsy, hd, hc, h1, h2, h3, h4, hs]

/-! ## C4: a failed download ends the session -/

/-- C4: when the download outcome has a non-zero `returnCode`, `test` returns
that `returnCode`, does not call `uploadTest` and does not call the
`finalMeasurements` callback, whatever the upload would have resolved to. -/
theorem test_download_failure_short_circuits (startTime : String) (config : Option Config)
    (downloadResults : Outcome) (uploadResults : Option Outcome)
    (h : downloadResults.returnCode ≠ 0) :
    (test startTime config (some downloadResults) uploadResults).completion =
      Completion.returned downloadResults.returnCode ∧
    (test startTime config (some downloadResults) uploadResults).uploadStarted = false ∧
    (test startTime config (some downloadResults) uploadResults).finalCalls = [] := by
  simp [test, h]

/-- C4 at a concrete input: the download resolved with 1, the upload would
resolve with 0. -/
theorem test_download_failure_short_circuits_witness :
    (test "t" none (some { returnCode := 1, client := none, server := none })
      (some { returnCode := 0, client := none, server := none })).completion =
      Completion.returned 1 ∧
    (test "t" none (some { returnCode := 1, client := none, server := none })
      (some { returnCode := 0, client := none, server := none })).uploadStarted = false :=
  have h := test_download_failure_short_circuits "t" none
    { returnCode := 1, client := none, server := none }
    (some { returnCode := 0, client := none, server := none }) (by decide)
  ⟨h.1, h.2.1⟩

/-! ## C5: the composite status -/

theorem toInt32_of_small (x : Int) (h0 : 0 ≤ x) (h1 : x < 2147483648) : toInt32 x = x := by
  have hm : x % 4294967296 = x := by omega
  simp only [toInt32, hm]
  rw [if_neg (by omega)]

theorem jsShl_four (b : Int) (h0 : 0 ≤ b) (h1 : b < 16) : jsShl b 4 = 16 * b := by
  have h2 : (2 : Int) ^ (4 % 32) = 16 := by norm_num
  rw [jsShl, toInt32_of_small b h0 (by omega), h2, toInt32_of_small (b * 16) (by omega) (by omega)]
  ring

theorem test_returns_of_upload_started (startTime : String) (config : Option Config)
    (d u : Outcome) (hd : d.Resolved) (hu : u.Resolved)
    (hstart : (test startTime config (some d) (some u)).uploadStarted = true) :
    d.returnCode = 0 ∧
    (test startTime config (some d) (some u)).completion =
      Completion.returned (d.returnCode + jsShl u.returnCode 4) := by
  by_cases hrc : d.returnCode = 0
  · refine ⟨hrc, ?_⟩
    obtain ⟨s, l, hs, hl⟩ := hd.2 hrc
    cases hc : d.client with
    | none => simp [test, hrc, hc] at hstart
    | some c =>
      by_cases hurc : u.returnCode = 0
      · obtain ⟨us, ul, hus, hul⟩ := hu.2 hurc
        simp [test, hrc, hc, hs, hl, hurc, hus, hul]
      · simp [test, hrc, hc, hs, hurc]
  · simp [test, hrc] at hstart

/-- C5: when the two subtest outcomes are ones the supervisor resolved with and
`test` calls `uploadTest`, `test` returns `downloadCode + (uploadCode << 4)`;
for all codes `a`, `b` in 0..15 both are recovered from `a + (b << 4)`, as its
remainder modulo 16 and as its shift right by 4; and the status returned is 0
exactly when both codes are 0. -/
theorem test_status_composite (startTime : String) (config : Option Config)
    (downloadEvents uploadEvents : List Event) (d u : Outcome)
    (hd : downloadTest downloadEvents = some d) (hu : uploadTest uploadEvents = some u)
    (hstart : (test startTime config (some d) (some u)).uploadStarted = true) :
    (test startTime config (some d) (some u)).completion =
      Completion.returned (d.returnCode + jsShl u.returnCode 4) ∧
    (∀ a b : Int, 0 ≤ a → a < 16 → 0 ≤ b → b < 16 →
      (a + jsShl b 4) % 16 = a ∧ jsShr (a + jsShl b 4) 4 = b) ∧
    (d.returnCode + jsShl u.returnCode 4 = 0 ↔ d.returnCode = 0 ∧ u.returnCode = 0) := by
  have hdr : d.Resolved := runNDT7Worker_settled "download" downloadEvents d hd
  have hur : u.Resolved := runNDT7Worker_settled "upload" uploadEvents u hu
  obtain ⟨hd0, hret⟩ := test_returns_of_upload_started startTime config d u hdr hur hstart
  refine ⟨hret, ?_, ?_⟩
  · intro a b ha0 ha1 hb0 hb1
    rw [jsShl_four b hb0 hb1]
    refine ⟨by omega, ?_⟩
    have h2 : (2 : Int) ^ (4 % 32) = 16 := by norm_num
    rw [jsShr, toInt32_of_small (a + 16 * b) (by omega) (by omega), h2]
    omega
  · rcases hur.1 with h | h
    · rw [h, hd0, jsShl_four 0 (by norm_num) (by norm_num)]; simp
    · rw [h, hd0, jsShl_four 1 (by norm_num) (by norm_num)]; simp

/-- C5 at a concrete input: the download succeeds, the upload is closed with
code 1006, and `test` returns `0 + (1 << 4)`. -/
theorem test_status_composite_witness :
    (test "t" none (some sampleDownloadOutcome) (some sampleUploadOutcome)).completion =
      Completion.returned (sampleDownloadOutcome.returnCode + jsShl sampleUploadOutcome.returnCode 4) ∧
    sampleDownloadOutcome.returnCode + jsShl sampleUploadOutcome.returnCode 4 = 16 :=
  ⟨(test_status_composite "t" none sampleDownloadEvents sampleUploadEvents
      sampleDownloadOutcome sampleUploadOutcome rfl rfl rfl).1, by decide⟩

/-! ## C6: jitter -/

theorem foldl_range_add (f : ℕ → ℚ) (n : ℕ) :
    (List.range n).foldl (fun sum i => sum + f i) 0 = ∑ i in Finset.range n, f i := by
  induction n with
  | zero => simp
  | succ n ih => simp [List.range_succ, List.foldl_append, Finset.sum_range_succ, ih]

theorem foldl_push (f : ℕ → ℚ) (l : List ℕ) (init : List ℚ) :
    l.foldl (fun variances i => variances ++ [f i]) init = init ++ l.map f := by
  induction l generalizing init with
  | nil => simp
  | cons a l ih => simp [ih]

theorem getAverage_eq (numbers : List ℚ) :
    getAverage numbers =
      jsDiv (∑ i in Finset.range numbers.length, numbers.getD i 0) numbers.length := by
  simp only [getAverage]
  rw [foldl_range_add (fun i => numbers.getD i 0)]

/-- C6: for at least two samples, `calculateJitter` is the arithmetic mean of
the absolute differences of consecutive samples, `(Σ |r[i] - r[i-1]|) / (n-1)`;
on `[100,100,100]` it is 0 and on `[100,200,100]` it is 100. -/
theorem calculateJitter_eq_specJitter :
    (∀ r : List ℚ, 2 ≤ r.length → calculateJitter r = some (specJitter r)) ∧
    calculateJitter [100, 100, 100] = some 0 ∧
    calculateJitter [100, 200, 100] = some 100 := by
  have general : ∀ r : List ℚ, 2 ≤ r.length → calculateJitter r = some (specJitter r) := by
    intro r hr
    have hne : ((r.length - 1 : ℕ) : ℚ) ≠ 0 := by
      have : 0 < r.length - 1 := by omega
      exact_mod_cast this.ne'
    simp only [calculateJitter]
    rw [foldl_push (fun i => |r.getD i 0 - r.getD (i - 1) 0|), List.nil_append, getAverage_eq]
    simp only [List.length_map, List.length_range', jsDiv, if_neg hne, specJitter]
    congr 2
    rw [Finset.range_eq_Ico, Finset.sum_Ico_eq_sum_range]
    simp only [Nat.sub_zero, Nat.zero_add]
    have hI : Finset.Icc 1 (r.length - 1) = Finset.Ico 1 (r.length - 1 + 1) := by
      ext x; simp [Nat.lt_succ_iff]
    rw [hI, Finset.sum_Ico_eq_sum_range]
    simp only [Nat.add_sub_cancel]
    apply Finset.sum_congr rfl
    intro i hi
    have hi' : i < r.length - 1 := Finset.mem_range.mp hi
    rw [List.getD_eq_getElem _ _ (by simpa using hi')]
    simp
  refine ⟨general, ?_, ?_⟩
  · rw [general _ (by simp)]
    norm_num [specJitter, Finset.sum_Icc_succ_top]
  · rw [general _ (by simp)]
    norm_num [specJitter, Finset.sum_Icc_succ_top]

/-- C6 at a concrete input. -/
theorem calculateJitter_eq_specJitter_witness :
    calculateJitter [100, 200, 100] = some (specJitter [100, 200, 100]) :=
  calculateJitter_eq_specJitter.1 [100, 200, 100] (by decide)

/-! ## C7: download bandwidth -/

/-- The client sample the download worker posts carries the cumulative byte
count and the time since `start` in seconds, the clock being in milliseconds. -/
theorem DownloadState.onmessage_sample (s : DownloadState) (currentTime : ℚ) (f : Frame)
    (h : currentTime - s.previous > 250) :
    ∃ mbps, ((s.onmessage currentTime f).2.head?.bind (·.ClientData)) =
      some { ElapsedTime := (currentTime - s.start) / 1000, NumBytes := ((s.total + f.size : ℕ) : ℚ),
             MeanClientMbps := mbps } := by
  refine ⟨(jsDiv ((s.total + f.size : ℕ) : ℚ) (currentTime - s.start)).map (· * (8 / 1000)), ?_⟩
  simp [DownloadState.onmessage, h]

/-- C7: for a download outcome with `returnCode` 0 whose client sample has
`NumBytes = n` and `ElapsedTime = t > 0`, the property `banda_download` of the
results record is `n*8 / t / 1000000`, in the record as `test` leaves it and in
every record given to the `finalMeasurements` callback; for `n = 12500000` and
`t = 10` it is 10. -/
theorem test_banda_download (startTime : String) (config : Option Config)
    (d : Outcome) (uploadResults : Option Outcome) (c : ClientData)
    (hrc : d.returnCode = 0) (hc : d.client = some c) (ht : 0 < c.ElapsedTime) :
    (test startTime config (some d) uploadResults).results.banda_download =
      some (some (c.NumBytes * 8 / c.ElapsedTime / 1000000)) ∧
    (∀ r ∈ (test startTime config (some d) uploadResults).finalCalls,
      r.banda_download = some (some (c.NumBytes * 8 / c.ElapsedTime / 1000000))) ∧
    (c.NumBytes = 12500000 → c.ElapsedTime = 10 →
      (test startTime config (some d) uploadResults).results.banda_download = some (some 10)) := by
  have ht' : c.ElapsedTime ≠ 0 := ht.ne'
  have main : (test startTime config (some d) uploadResults).results.banda_download =
      some (some (c.NumBytes * 8 / c.ElapsedTime / 1000000)) ∧
    (∀ r ∈ (test startTime config (some d) uploadResults).finalCalls,
      r.banda_download = some (some (c.NumBytes * 8 / c.ElapsedTime / 1000000))) := by
    cases hs : d.server with
    | none => simp [test, hrc, hc, hs, jsDiv, ht']
    | some server =>
      cases uploadResults with
      | none => simp [test, hrc, hc, hs, jsDiv, ht']
      | some u =>
        by_cases hu : u.returnCode = 0
        · cases hus : u.server with
          | none => simp [test, hrc, hc, hs, jsDiv, ht', hu, hus]
          | some us =>
            cases hdl : server.AllRTTs with
            | none => simp [test, hrc, hc, hs, jsDiv, ht', hu, hus, hdl]
            | some dl =>
              cases hul : us.AllRTTs <;> simp [test, hrc, hc, hs, jsDiv, ht', hu, hus, hdl, hul]
        · simp [test, hrc, hc, hs, jsDiv, ht', hu]
  refine ⟨main.1, main.2, ?_⟩
  intro hn he
  rw [main.1, hn, he]
  norm_num

/-- C7 at a concrete input: 12,500,000 bytes in 10 seconds give 10 Mbps. -/
theorem test_banda_download_witness :
    (test "t" none (some sampleDownloadOutcome) none).results.banda_download = some (some 10) :=
  (test_banda_download "t" none sampleDownloadOutcome none sampleClient rfl rfl
    (by norm_num [sampleClient])).2.2 rfl rfl

/-! ## The pacing loop: one call of `uploader` -/

theorem reachesGrowthRule_iff (s : PacingState) (t : Tick) :
    reachesGrowthRule s t = true ↔ t.closed = false ∧ t.currentTime < s.endTime := by
  simp [reachesGrowthRule]

/-- The size the growth rule leaves. -/
theorem uploader_of_reaches (s : PacingState) (t : Tick) (h : reachesGrowthRule s t = true) :
    ∃ s', (uploader s t).next = some s' ∧
      s'.data = (if s.data < maxMessageSize ∧ sentAtGrowth s t ≥ 16 * (s.data : Int)
        then s.data * 2 else s.data) ∧
      (uploader s t).sent = (if t.bufferedAtSend < 7 * s'.data then some s'.data else none) := by
  obtain ⟨hc, hlt⟩ := (reachesGrowthRule_iff s t).mp h
  have hge : ¬ t.currentTime ≥ s.endTime := not_le.mpr hlt
  by_cases hmax : s.data ≥ maxMessageSize
  · have hlt' : ¬ s.data < maxMessageSize := not_lt.mpr hmax
    simp [uploader, hc, hge, hmax, hlt']
  · have hlt' : s.data < maxMessageSize := not_le.mp hmax
    by_cases hg : sentAtGrowth s t ≥ 16 * (s.data : Int)
    · have hg' := hg
      simp only [sentAtGrowth] at hg'
      simp [uploader, hc, hge, hmax, hlt', hg, hg']
    · have hg' := hg
      simp only [sentAtGrowth] at hg'
      simp [uploader, hc, hge, hmax, hlt', hg, hg']

theorem reaches_of_next (s s' : PacingState) (t : Tick) (h : (uploader s t).next = some s') :
    reachesGrowthRule s t = true := by
  rw [reachesGrowthRule_iff]
  by_cases hc : t.closed = true
  · simp [uploader, hc] at h
  · by_cases hge : t.currentTime ≥ s.endTime
    · simp [uploader, hc, hge] at h
    · exact ⟨by simpa using hc, not_le.mp hge⟩

theorem reaches_of_sent (s : PacingState) (t : Tick) (n : ℕ) (h : (uploader s t).sent = some n) :
    reachesGrowthRule s t = true := by
  rw [reachesGrowthRule_iff]
  by_cases hc : t.closed = true
  · simp [uploader, hc] at h
  · by_cases hge : t.currentTime ≥ s.endTime
    · simp [uploader, hc, hge] at h
    · exact ⟨by simpa using hc, not_le.mp hge⟩

theorem PacingState.powerSize_onopen (now : ℚ) : (PacingState.onopen now).PowerSize :=
  ⟨0, by norm_num, by simp [PacingState.onopen]⟩

theorem PacingState.powerSize_pos (s : PacingState) (h : s.PowerSize) : 0 < s.data := by
  obtain ⟨k, -, hk⟩ := h
  rw [hk]
  exact Nat.mul_pos (by norm_num [initialMessageSize]) (pow_pos (by norm_num) k)

theorem PacingState.powerSize_le (s : PacingState) (h : s.PowerSize) : s.data ≤ maxMessageSize := by
  obtain ⟨k, hk10, hk⟩ := h
  rw [hk]
  have : 2 ^ k ≤ 2 ^ 10 := Nat.pow_le_pow_right (by norm_num) hk10
  simp only [initialMessageSize, maxMessageSize]
  omega

/-- From one call of `uploader` to the next the size stays or doubles, and it
stays of the form `8192 * 2^k` with `k ≤ 10`. -/
theorem uploader_next_size (s s' : PacingState) (t : Tick) (hs : s.PowerSize)
    (h : (uploader s t).next = some s') :
    (s'.data = s.data ∨ s'.data = 2 * s.data) ∧ s'.PowerSize := by
  obtain ⟨s'', hn, hd, -⟩ := uploader_of_reaches s t (reaches_of_next s s' t h)
  rw [h] at hn
  cases hn
  split at hd
  · rename_i hcond
    refine ⟨Or.inr (by omega), ?_⟩
    obtain ⟨k, hk10, hk⟩ := hs
    have hlt : s.data < maxMessageSize := hcond.1
    have hk9 : k < 10 := by
      by_contra hcon
      have hk' : k = 10 := by omega
      rw [hk, hk'] at hlt
      simp [initialMessageSize, maxMessageSize] at hlt
    exact ⟨k + 1, by omega, by rw [hd, hk, pow_succ]; ring⟩
  · exact ⟨Or.inl hd, by obtain ⟨k, hk10, hk⟩ := hs; exact ⟨k, hk10, by rw [hd, hk]⟩⟩

theorem uploadLoop_powerSize (ticks : List Tick) (s0 : PacingState) (h0 : s0.PowerSize) :
    ∀ s ∈ uploadLoop s0 ticks, s.PowerSize := by
  induction ticks generalizing s0 with
  | nil => intro s hs; simp [uploadLoop] at hs
  | cons t ts ih =>
    intro s hs
    cases hn : (uploader s0 t).next with
    | none => simp [uploadLoop, hn] at hs
    | some s' =>
      simp only [uploadLoop, hn, List.mem_cons] at hs
      have hs' := (uploader_next_size s0 s' t h0 hn).2
      rcases hs with rfl | hs
      · exact hs'
      · exact ih s' hs' s hs

theorem uploadCalls_powerSize (now : ℚ) (ticks : List Tick) :
    ∀ s ∈ uploadCalls now ticks, s.PowerSize := by
  intro s hs
  simp only [uploadCalls, List.mem_cons] at hs
  rcases hs with rfl | hs
  · exact PacingState.powerSize_onopen now
  · exact uploadLoop_powerSize ticks _ (PacingState.powerSize_onopen now) s hs

theorem uploadLoop_chain (ticks : List Tick) (s0 : PacingState) (h0 : s0.PowerSize) :
    List.Chain' (fun a b : PacingState => b.data = a.data ∨ b.data = 2 * a.data)
      (s0 :: uploadLoop s0 ticks) := by
  induction ticks generalizing s0 with
  | nil => simp [uploadLoop]
  | cons t ts ih =>
    cases hn : (uploader s0 t).next with
    | none => simp [uploadLoop, hn]
    | some s' =>
      simp only [uploadLoop, hn]
      have hstep := uploader_next_size s0 s' t h0 hn
      exact List.Chain'.cons hstep.1 (ih s' hstep.2)

/-! ## C8: the message size along a run -/

/-- C8: along every run of the pacing loop, whatever the clock and
`bufferedAmount` read at each tick, the message size of the first call is 8192,
from each call to the next it stays the same or exactly doubles, and it never
exceeds 8,388,608. -/
theorem uploadCalls_message_size (now : ℚ) (ticks : List Tick) :
    (uploadCalls now ticks).head?.map (·.data) = some 8192 ∧
    List.Chain' (fun a b : PacingState => b.data = a.data ∨ b.data = 2 * a.data)
      (uploadCalls now ticks) ∧
    ∀ s ∈ uploadCalls now ticks, s.data ≤ 8388608 := by
  refine ⟨by simp [uploadCalls, PacingState.onopen, initialMessageSize], ?_, ?_⟩
  · exact uploadLoop_chain ticks _ (PacingState.powerSize_onopen now)
  · intro s hs
    exact PacingState.powerSize_le s (uploadCalls_powerSize now ticks s hs)

/-! ## C9: the growth rule -/

theorem growthPoint_flushedTicks :
    growthPoint (PacingState.onopen 0) 0 flushedTicks =
      ({ data := 16384, start := 0, endTime := 10000, previous := 0, total := 262144 }, 131072) := by
  norm_num [growthPoint, flushedTicks, List.replicate, uploader, doubles, sentAtGrowth, flushedTick,
    PacingState.onopen, maxMessageSize, initialMessageSize]

theorem uploadCalls_flushedTicks_getLast :
    (uploadCalls 0 flushedTicks).getLast? =
      some { data := 16384, start := 0, endTime := 10000, previous := 0, total := 262144 } := by
  norm_num [uploadCalls, uploadLoop, flushedTicks, List.replicate, uploader, flushedTick,
    PacingState.onopen, maxMessageSize, initialMessageSize]

/-- C9 as worded fails: in a session opened at time 0 whose 24 first ticks each
find the buffer flushed, the size doubled on the 17th tick, at `sent = 131072`;
the pacing state is then size 16384, total 262144.  The 25th call reaches the
growth rule with that state (the last of the run) and doubles the size, though
`sent` has advanced by only `262144 - 131072 = 8 * 16384` since the previous
growth point, less than 16 times the current size. -/
theorem growth_rule_counterexample :
    (uploadCalls 0 flushedTicks).getLast? =
      some (growthPoint (PacingState.onopen 0) 0 flushedTicks).1 ∧
    reachesGrowthRule (growthPoint (PacingState.onopen 0) 0 flushedTicks).1 (flushedTick 32768) = true ∧
    (growthPoint (PacingState.onopen 0) 0 flushedTicks).1.data < maxMessageSize ∧
    doubles (growthPoint (PacingState.onopen 0) 0 flushedTicks).1 (flushedTick 32768) = true ∧
    sentAtGrowth (growthPoint (PacingState.onopen 0) 0 flushedTicks).1 (flushedTick 32768) -
      (growthPoint (PacingState.onopen 0) 0 flushedTicks).2 = 8 * 16384 ∧
    ¬ specGrowthCondition (growthPoint (PacingState.onopen 0) 0 flushedTicks).2
      (growthPoint (PacingState.onopen 0) 0 flushedTicks).1 (flushedTick 32768) := by
  rw [growthPoint_flushedTicks, uploadCalls_flushedTicks_getLast]
  refine ⟨rfl, ?_, ?_, ?_, ?_, ?_⟩
  · norm_num [reachesGrowthRule, flushedTick]
  · norm_num [maxMessageSize]
  · norm_num [doubles, uploader, flushedTick, maxMessageSize]
  · norm_num [sentAtGrowth, flushedTick]
  · norm_num [specGrowthCondition, sentAtGrowth, flushedTick]

/-- C9, amended: on every call of `uploader` in a run that reaches the growth
rule with a message size below 8 MiB, the size is doubled exactly when
`sent = total - sock.bufferedAmount` is at least 16 times the current message
size, a threshold counted from the start of the session. -/
theorem uploader_doubles_iff (now : ℚ) (ticks : List Tick) (s : PacingState)
    (hs : s ∈ uploadCalls now ticks) (t : Tick) (hreach : reachesGrowthRule s t = true)
    (hsize : s.data < maxMessageSize) :
    doubles s t = true ↔ sentAtGrowth s t ≥ 16 * (s.data : Int) := by
  have hpos := PacingState.powerSize_pos s (uploadCalls_powerSize now ticks s hs)
  obtain ⟨s', hn, hd, -⟩ := uploader_of_reaches s t hreach
  simp only [doubles, hn, decide_eq_true_eq]
  by_cases hg : sentAtGrowth s t ≥ 16 * (s.data : Int)
  · rw [if_pos ⟨hsize, hg⟩] at hd
    exact ⟨fun _ => hg, fun _ => by omega⟩
  · rw [if_neg (fun h => hg h.2)] at hd
    exact ⟨fun h => by omega, fun h => absurd h hg⟩

/-- C9, amended, at a concrete input: the first call of a session, which does
not double the size. -/
theorem uploader_doubles_iff_witness :
    doubles (PacingState.onopen 0) (flushedTick 8192) = true ↔
      sentAtGrowth (PacingState.onopen 0) (flushedTick 8192) ≥
        16 * ((PacingState.onopen 0).data : Int) :=
  uploader_doubles_iff 0 [] (PacingState.onopen 0) (by simp [uploadCalls]) (flushedTick 8192)
    (by norm_num [reachesGrowthRule, flushedTick, PacingState.onopen])
    (by norm_num [PacingState.onopen, initialMessageSize, maxMessageSize])

/-! ## C10: flow control -/

/-- C10: whenever a call of `uploader` in a run calls `sock.send`, the array
sent has the size the growth rule left on that call, the `bufferedAmount` the
flow control read is strictly below 7 times that size, so that the amount
outstanding once the message is queued is below 8 times that size and at most
`8 * 8388608 - 1`. -/
theorem uploader_send_bound (now : ℚ) (ticks : List Tick) (s : PacingState)
    (hs : s ∈ uploadCalls now ticks) (t : Tick) (n : ℕ) (hsent : (uploader s t).sent = some n) :
    (∃ s', (uploader s t).next = some s' ∧ s'.data = n) ∧
    t.bufferedAtSend < 7 * n ∧
    t.bufferedAtSend + n < 8 * n ∧
    t.bufferedAtSend + n ≤ 8 * 8388608 - 1 := by
  have hp := uploadCalls_powerSize now ticks s hs
  obtain ⟨s', hn, -, hsend⟩ := uploader_of_reaches s t (reaches_of_sent s t n hsent)
  have hle := PacingState.powerSize_le s' (uploader_next_size s s' t hp hn).2
  rw [hsent] at hsend
  simp only [maxMessageSize] at hle
  split at hsend
  · rename_i hlt
    cases hsend
    exact ⟨⟨s', hn, rfl⟩, hlt, by omega, by omega⟩
  · cases hsend

/-- C10 at a concrete input: the first call of a session sends 8192 bytes. -/
theorem uploader_send_bound_witness :
    (flushedTick 8192).bufferedAtSend < 7 * 8192 ∧
    (flushedTick 8192).bufferedAtSend + 8192 ≤ 8 * 8388608 - 1 :=
  have h := uploader_send_bound 0 [] (PacingState.onopen 0) (by simp [uploadCalls])
    (flushedTick 8192) 8192
    (by norm_num [uploader, flushedTick, PacingState.onopen, initialMessageSize, maxMessageSize])
  ⟨h.2.1, h.2.2.2⟩

/-! ## C11: the RTT samples of a session -/

theorem serverRTTs_append (a b : List Event) :
    serverRTTs (a ++ b) = serverRTTs a ++ serverRTTs b := by
  induction a with
  | nil => simp [serverRTTs]
  | cons e es ih => simp [serverRTTs, ih]

theorem Supervisor.rtts_leave_resolve (w : Supervisor) (returnCode : Int) :
    (Supervisor.leave (w.resolve returnCode)).rtts = w.rtts := by
  by_cases hrc : returnCode = 0
  · cases hs : w.lastServerMeasurement <;> simp [Supervisor.resolve, Supervisor.leave, hrc, hs]
  · simp [Supervisor.resolve, Supervisor.leave, hrc]

theorem Supervisor.rtts_leave_resolve_error (w : Supervisor) (returnCode : Int)
    (message : Option String) :
    (Supervisor.leave (do
      let w ← w.resolve returnCode
      pure (w.error message))).rtts = w.rtts := by
  by_cases hrc : returnCode = 0
  · cases hs : w.lastServerMeasurement <;>
      simp [Supervisor.resolve, Supervisor.leave, Supervisor.error, hrc, hs, bind, Except.bind,
        pure, Except.pure]
  · simp [Supervisor.resolve, Supervisor.leave, Supervisor.error, hrc, bind, Except.bind, pure,
      Except.pure]

/-- Each event appends to `rtts` exactly the RTT it carries as a server
measurement message. -/
theorem Supervisor.rtts_step (testType : String) (w : Supervisor) (e : Event) :
    (w.step testType e).rtts = w.rtts ++ e.serverRTT := by
  cases e with
  | timeout =>
    simp only [Supervisor.step, Supervisor.ontimeout, Event.serverRTT, List.append_nil]
    split
    · exact Supervisor.rtts_leave_resolve _ 0
    · rfl
  | message data =>
    cases data with
    | none =>
      simp only [Supervisor.step, Supervisor.onmessage, Event.serverRTT, List.append_nil]
      exact Supervisor.rtts_leave_resolve_error _ 1 _
    | some d =>
      by_cases hm : d.MsgType = some "measurement"
      · by_cases hsrc : d.Source = some "server"
        · cases hs : d.ServerData <;>
            simp [Supervisor.step, Supervisor.onmessage, Event.serverRTT, Supervisor.leave, falsy,
              hm, hsrc, hs]
        · simp [Supervisor.step, Supervisor.onmessage, Event.serverRTT, falsy, hm, hsrc]
      · have hr : Event.serverRTT (Event.message (some d)) = [] := by
          simp [Event.serverRTT, hm]
        rw [hr, List.append_nil]
        simp only [Supervisor.step, Supervisor.onmessage]
        split
        · exact Supervisor.rtts_leave_resolve_error _ 1 _
        · split
          · rename_i h; exact absurd (by simpa using h) hm
          · split
            · split
              · exact Supervisor.rtts_leave_resolve_error _ 1 _
              · exact Supervisor.rtts_leave_resolve _ 0
            · rfl

/-- The variable `rtts` holds the RTT values of the server measurement messages
received so far, in order. -/
theorem runNDT7Worker_rtts (testType : String) (events : List Event) :
    (runNDT7Worker testType events).rtts = serverRTTs events := by
  induction events using List.reverseRecOn with
  | nil => rfl
  | append_singleton es e ih =>
    rw [runNDT7Worker_append, Supervisor.rtts_step, ih, serverRTTs_append]
    simp [serverRTTs]

theorem Supervisor.promise_leave_resolve (w : Supervisor) (returnCode : Int)
    (hp : w.promise = none) :
    (Supervisor.leave (w.resolve returnCode)).promise =
      if returnCode = 0 then
        w.lastServerMeasurement.map fun s =>
          { returnCode := 0, client := w.lastClientMeasurement
            server := some { s with AllRTTs := some w.rtts } }
      else
        some { returnCode := returnCode, client := w.lastClientMeasurement
               server := w.lastServerMeasurement } := by
  by_cases hrc : returnCode = 0
  · cases hs : w.lastServerMeasurement <;>
      simp [Supervisor.resolve, Supervisor.leave, hrc, hs, hp]
  · simp [Supervisor.resolve, Supervisor.leave, hrc, hp]

theorem Supervisor.promise_leave_resolve_error (w : Supervisor) (returnCode : Int)
    (message : Option String) :
    (Supervisor.leave (do
      let w ← w.resolve returnCode
      pure (w.error message))).promise = (Supervisor.leave (w.resolve returnCode)).promise := by
  cases hr : w.resolve returnCode <;>
    simp [Supervisor.leave, Supervisor.error, bind, Except.bind, pure, Except.pure]

/-- The event that resolves a pending promise with `returnCode` 0 is no server
measurement, and the outcome carries the last server measurement with `rtts`
as its `AllRTTs`. -/
theorem Supervisor.step_resolves_zero (testType : String) (w : Supervisor) (e : Event)
    (o : Outcome) (hp : w.promise = none) (ho : (w.step testType e).promise = some o)
    (h0 : o.returnCode = 0) :
    e.serverRTT = [] ∧ ∃ s, o.server = some s ∧ s.AllRTTs = some w.rtts := by
  have hclear : w.clearTimeout.promise = none := by simpa [Supervisor.clearTimeout] using hp
  have zero : ∀ w' : Supervisor, w'.promise = none → w'.rtts = w.rtts →
      (Supervisor.leave (w'.resolve 0)).promise = some o →
      ∃ s, o.server = some s ∧ s.AllRTTs = some w.rtts := by
    intro w' hp' hr h
    rw [Supervisor.promise_leave_resolve w' 0 hp', if_pos rfl] at h
    cases hs : w'.lastServerMeasurement with
    | none => simp [hs] at h
    | some s =>
      simp only [hs, Option.map_some', Option.some.injEq] at h
      subst h
      exact ⟨_, rfl, by simp [hr]⟩
  have one : ∀ w' : Supervisor, w'.promise = none →
      (Supervisor.leave (w'.resolve 1)).promise = some o → False := by
    intro w' hp' h
    rw [Supervisor.promise_leave_resolve w' 1 hp', if_neg (by norm_num)] at h
    simp only [Option.some.injEq] at h
    subst h
    simp at h0
  cases e with
  | timeout =>
    refine ⟨rfl, ?_⟩
    simp only [Supervisor.step, Supervisor.ontimeout] at ho
    split at ho
    · exact zero w.clearTimeout hclear rfl ho
    · rw [hp] at ho; cases ho
  | message data =>
    cases data with
    | none =>
      simp only [Supervisor.step, Supervisor.onmessage] at ho
      rw [Supervisor.promise_leave_resolve_error] at ho
      exact (one _ hclear ho).elim
    | some d =>
      simp only [Supervisor.step, Supervisor.onmessage] at ho
      split at ho
      · rw [Supervisor.promise_leave_resolve_error] at ho
        exact (one _ hclear ho).elim
      · split at ho
        · split at ho
          · cases hs : d.ServerData <;> simp [hs, Supervisor.leave, hp] at ho
          · simp [hp] at ho
        · rename_i hnm
          have hr : Event.serverRTT (Event.message (some d)) = [] := by
            have : d.MsgType ≠ some "measurement" := by simpa using hnm
            simp [Event.serverRTT, this]
          refine ⟨hr, ?_⟩
          split at ho
          · split at ho
            · rw [Supervisor.promise_leave_resolve_error] at ho
              exact (one _ hclear ho).elim
            · exact zero _ hclear rfl ho
          · rw [hp] at ho; cases ho

/-- What a supervisor's outcome with `returnCode` 0 carries, when the promise
was pending before the last event delivered. -/
theorem runNDT7Worker_allRTTs (testType : String) (events : List Event) (e : Event) (o : Outcome)
    (hp : (runNDT7Worker testType events).promise = none)
    (ho : (runNDT7Worker testType (events ++ [e])).promise = some o) (h0 : o.returnCode = 0) :
    ∃ s, o.server = some s ∧ s.AllRTTs = some (serverRTTs (events ++ [e])) := by
  rw [runNDT7Worker_append] at ho
  obtain ⟨he, s, hs, hall⟩ := Supervisor.step_resolves_zero testType _ e o hp ho h0
  refine ⟨s, hs, ?_⟩
  rw [hall, runNDT7Worker_rtts, serverRTTs_append]
  simp [serverRTTs, he]

/-- C11: in a session where the download and the upload supervisor each resolve
their pending promise, on the last event delivered to them, with `returnCode`
0, and `test` calls `uploadTest`: the `server.AllRTTs` of each outcome is the
list of the `TCPInfo.RTT` values of the server measurement messages that
subtest delivered, in the order of receipt; and the `rtt` and `jitter` of the
results record, which is given once to the `finalMeasurements` callback, are
`getAverage` and `calculateJitter` (over 1000) of the download list followed
by the upload list. -/
theorem session_allRTTs (startTime : String) (config : Option Config)
    (downloadEvents uploadEvents : List Event) (de ue : Event) (d u : Outcome)
    (hdp : downloadTest downloadEvents = none)
    (hd : downloadTest (downloadEvents ++ [de]) = some d)
    (hup : uploadTest uploadEvents = none)
    (hu : uploadTest (uploadEvents ++ [ue]) = some u)
    (hd0 : d.returnCode = 0) (hu0 : u.returnCode = 0)
    (hstart : (test startTime config (some d) (some u)).uploadStarted = true) :
    (∃ s, d.server = some s ∧ s.AllRTTs = some (serverRTTs (downloadEvents ++ [de]))) ∧
    (∃ s, u.server = some s ∧ s.AllRTTs = some (serverRTTs (uploadEvents ++ [ue]))) ∧
    (test startTime config (some d) (some u)).results.rtt =
      some ((getAverage (serverRTTs (downloadEvents ++ [de]) ++
        serverRTTs (uploadEvents ++ [ue]))).map (· / 1000)) ∧
    (test startTime config (some d) (some u)).results.jitter =
      some ((calculateJitter (serverRTTs (downloadEvents ++ [de]) ++
        serverRTTs (uploadEvents ++ [ue]))).map (· / 1000)) ∧
    (test startTime config (some d) (some u)).finalCalls =
      [(test startTime config (some d) (some u)).results] := by
  obtain ⟨ds, hds, hdall⟩ := runNDT7Worker_allRTTs "download" downloadEvents de d hdp hd hd0
  obtain ⟨us, hus, huall⟩ := runNDT7Worker_allRTTs "upload" uploadEvents ue u hup hu hu0
  refine ⟨⟨ds, hds, hdall⟩, ⟨us, hus, huall⟩, ?_⟩
  cases hc : d.client with
  | none => simp [test, hd0, hc] at hstart
  | some c => simp [test, hd0, hc, hds, hdall, hu0, hus, huall]

/-- C11 at a concrete input: a download with one server measurement (RTT
20000) and an upload with two (RTT 30000, then 20000), each closed with code
1000. -/
theorem session_allRTTs_witness :
    (∃ s, sampleUploadSuccess.server = some s ∧
      s.AllRTTs = some (serverRTTs (sampleUploadMeasurements ++
        [Event.message (some { MsgType := some "closed", code := some 1000 })]))) ∧
    serverRTTs (sampleDownloadMeasurements ++
        [Event.message (some { MsgType := some "closed", code := some 1000 })]) ++
      serverRTTs (sampleUploadMeasurements ++
        [Event.message (some { MsgType := some "closed", code := some 1000 })]) =
      [20000, 30000, 20000] :=
  ⟨(session_allRTTs "t" none sampleDownloadMeasurements sampleUploadMeasurements
      (Event.message (some { MsgType := some "closed", code := some 1000 }))
      (Event.message (some { MsgType := some "closed", code := some 1000 }))
      sampleDownloadOutcome sampleUploadSuccess rfl rfl rfl rfl rfl rfl rfl).2.1, by decide⟩

end Ndt7
